import Mathlib

/-!
Shallow embedding of the Revu job-orchestration layer.

Source files embedded:
* `backend/app/routes/fetch_review_job.py` — the API endpoints `start_scrape`,
  `scrape_status`, `cancel_scrape` built on a Redis coordination store.
* `backend/app/worker.py` — the Celery worker task `run_scraper_task` with its
  lock-reinforcement prologue, the cooperative-cancellation helper `_do_cancel`,
  the progress callback `_update`, and the owner-checked lock release used at
  job completion.

Modelling conventions:
* The Redis coordination store is a record of the keys this layer touches:
  the single lock key (`revu:scrape:lock`, carrying its remaining TTL), the
  lock-owner key (`revu:scrape:lock:task`, a task id with its TTL), and the
  per-task metadata / result / cancel-flag keys as association lists keyed by
  task id.  TTL expiry is modelled as key absence; the metadata/result/cancel
  TTLs are not tracked because no claim depends on their numeric values.
* JSON envelopes written by the code are structured records mirroring the dict
  fields the code reads and writes; opaque payloads that the orchestration
  layer merely passes through (review arrays, product dicts) are `String`s.
* Python exceptions raised by store/queue calls are injected through explicit
  boolean failure flags at exactly the call sites whose failure behaviour the
  code distinguishes; `except ...: pass` blocks become conditionals that skip
  the guarded effect.  `raise HTTPException(code)` becomes an `httpError code`
  result constructor.
-/

namespace Revu

/-- `LOCK_TTL` from both modules: 3600 seconds (1 hour). -/
def LOCK_TTL : Nat := 3600

/-- Association-list lookup for a string-keyed Redis key family. -/
def lookupKey {α : Type} (m : List (String × α)) (k : String) : Option α :=
  (m.find? (fun p => p.1 == k)).map (fun p => p.2)

/-- Association-list overwrite (Redis SET on a key family member). -/
def setKey {α : Type} (m : List (String × α)) (k : String) (v : α) :
    List (String × α) :=
  (k, v) :: m.filter (fun p => p.1 != k)

/-- The JSON status envelope stored under `revu:task:{id}:meta`.
The code writes objects of the shapes `{state, progress}`,
`{state, progress, error}` and `{state, error}` and reads the fields back with
`meta.get("state")`, `meta.get("progress", 0)`, `meta.get("error")`, so
`progress` and `error` are optional fields. -/
structure MetaEnv where
  state : String
  progress : Option Int
  error : Option String
deriving DecidableEq, Repr

/-- The JSON result payload stored under `revu:task:{id}:result`, restricted to
the fields the status endpoint reads back (`result.get("reviews")`,
`result.get("count")`, `result.get("product")`); the reviews array and product
dict are opaque to the orchestration layer and modelled as strings. -/
structure ResultPayload where
  reviews : Option String
  count : Option Int
  product : Option String
deriving DecidableEq, Repr

/-- The Redis coordination store, restricted to the keys the orchestration
layer touches.  `lock = some t` means `revu:scrape:lock` exists with remaining
TTL `t`; `owner = some (tid, t)` means `revu:scrape:lock:task` holds `tid`
with remaining TTL `t`.  `cancel` is the set of task ids whose
`revu:task:{id}:cancel` flag key exists. -/
structure Store where
  lock : Option Nat
  owner : Option (String × Nat)
  meta : List (String × MetaEnv)
  result : List (String × ResultPayload)
  cancel : List String
deriving DecidableEq, Repr

/-- A Celery `AsyncResult.info` payload as the fallback path of the status
endpoint sees it: Python `None`, a dict (restricted to the keys read:
`progress`, `exc`, `reviews`, `count`, `product`), or some other object with
its truthiness and its `str()` rendering. -/
inductive PyInfo where
  | pyNone : PyInfo
  | pyDict (progress : Option Int) (exc : Option String)
      (reviews : Option String) (count : Option Int)
      (product : Option String) : PyInfo
  | pyOther (truthy : Bool) (str : String) : PyInfo
deriving DecidableEq, Repr

/-- `isinstance(info, dict)`. -/
def isDict : PyInfo → Bool
  | .pyDict _ _ _ _ _ => true
  | _ => false

/-- `info.get("progress", 0) if isinstance(info, dict) else 0`. -/
def infoProgress : PyInfo → Int
  | .pyDict p _ _ _ _ => p.getD 0
  | _ => 0

/-- `info.get("reviews")` on a dict, `None` otherwise (the SUCCESS fallback
branch is only taken when `info` is a dict). -/
def infoReviews : PyInfo → Option String
  | .pyDict _ _ r _ _ => r
  | _ => none

/-- `info.get("count")` on a dict, `None` otherwise. -/
def infoCount : PyInfo → Option Int
  | .pyDict _ _ _ c _ => c
  | _ => none

/-- `info.get("product")` on a dict, `None` otherwise. -/
def infoProduct : PyInfo → Option String
  | .pyDict _ _ _ _ p => p
  | _ => none

/-- `info.get("exc") if isinstance(info, dict) else (str(info) if info else
None)` — the FAILURE branch of the fallback path. -/
def infoError : PyInfo → Option String
  | .pyDict _ e _ _ _ => e
  | .pyNone => none
  | .pyOther truthy s => if truthy then some s else none

/-- The rate-limit phase of `start_scrape` (fetch_review_job.py lines 44-75).
`rate` is the caller's `revu:rate:{user}:{day}` counter for the current UTC
day (`none` when absent or expired).  Returns (rejected-with-429?, new
counter).  Redis `INCR` creates an absent key at 1; the TTL-to-UTC-midnight
logic (lines 52-65) only sets key expiry, which this model renders as the
counter being absent again on the next day.  When Redis is down the `INCR`
raises before any server-side change and the enclosing
`except Exception: pass` proceeds without rate limiting. -/
def rate_limit_check (limit : Int) (rate : Option Nat) (redisDown : Bool) :
    Bool × Option Nat :=
  if limit > 0 then
    if redisDown then (false, rate)
    else
      let new_count := rate.getD 0 + 1
      if (new_count : Int) > limit then (true, some new_count)
      else (false, some new_count)
  else (false, rate)

/-- Outcome of the `start_scrape` endpoint body. -/
inductive StartResult where
  | ok (job_id : String) : StartResult
  | httpError (code : Nat) : StartResult
deriving DecidableEq, Repr

/-- Result of one `start_scrape` call: the HTTP-level result, whether
`celery_app.send_task` ran successfully (the job was enqueued), the new rate
counter, and the new store. -/
structure StartOutcome where
  result : StartResult
  submitted : Bool
  rate : Option Nat
  store : Store
deriving DecidableEq, Repr

/-- `start_scrape` (fetch_review_job.py lines 40-96).  After the rate-limit
phase, `SET lock NX EX LOCK_TTL` acquires the lock iff absent (else 409);
importing the worker module or `send_task` raising leads to deletion of both
lock keys and a 500; after a successful submission the owner key is written
with the task id — if that write raises, the same `except` clause deletes both
lock keys and returns 500 even though the task was already enqueued. -/
def start_scrape (limit : Int) (rate : Option Nat) (st : Store)
    (task_id : String)
    (redisDownInRate importFails submitFails ownerSetFails : Bool) :
    StartOutcome :=
  let rc := rate_limit_check limit rate redisDownInRate
  if rc.1 then ⟨.httpError 429, false, rc.2, st⟩
  else if st.lock.isSome then ⟨.httpError 409, false, rc.2, st⟩
  else
    let st1 : Store := { st with lock := some LOCK_TTL }
    if importFails then
      ⟨.httpError 500, false, rc.2, { st1 with lock := none, owner := none }⟩
    else if submitFails then
      ⟨.httpError 500, false, rc.2, { st1 with lock := none, owner := none }⟩
    else if ownerSetFails then
      ⟨.httpError 500, true, rc.2, { st1 with lock := none, owner := none }⟩
    else
      ⟨.ok task_id, true, rc.2,
        { st1 with owner := some (task_id, LOCK_TTL) }⟩

/-- The `ScrapeStatusResponse` model returned by the status endpoint. -/
structure ScrapeStatusResponse where
  job_id : String
  state : String
  progress : Int
  result : Option String
  count : Option Int
  product : Option String
  error : Option String
deriving DecidableEq, Repr

/-- Outcome of one `scrape_status` call: the response together with the store
it leaves behind, or an HTTP error. -/
inductive StatusResult where
  | ok (resp : ScrapeStatusResponse) (st : Store) : StatusResult
  | httpError (code : Nat) : StatusResult
deriving DecidableEq, Repr

/-- The Celery fallback tail of `scrape_status` (fetch_review_job.py lines
219-273), reached when the metadata key is absent (or holds an unrecognised
state).  `nativeState`/`nativeInfo` are the Task Queue's `AsyncResult.state`
and `.info` for the job id.  On a terminal native state both lock keys are
deleted unconditionally (the `try` only guards against Redis errors). -/
def fallbackStatus (st : Store) (job_id : String) (nativeState : String)
    (nativeInfo : PyInfo) : ScrapeStatusResponse × Store :=
  let st1 :=
    if nativeState = "SUCCESS" ∨ nativeState = "FAILURE" ∨
        nativeState = "REVOKED" then
      { st with lock := none, owner := none }
    else st
  if nativeState = "SUCCESS" ∧ isDict nativeInfo = true then
    (⟨job_id, nativeState, 100, infoReviews nativeInfo, infoCount nativeInfo,
      infoProduct nativeInfo, none⟩, st1)
  else if nativeState = "FAILURE" then
    (⟨job_id, nativeState, infoProgress nativeInfo, none, none, none,
      infoError nativeInfo⟩, st1)
  else
    (⟨job_id, nativeState, infoProgress nativeInfo, none, none, none, none⟩,
      st1)

/-- `scrape_status` (fetch_review_job.py lines 98-273).  The initial metadata
read failing raises a 503.  With a metadata envelope present the four known
states are handled directly — in the terminal branches (SUCCESS / REVOKED /
FAILURE) both lock keys are deleted unconditionally; the best-effort MongoDB
persistence on SUCCESS touches no coordination-store key and is omitted.  An
absent envelope (or an envelope with an unrecognised state, or an unparsable
one) falls through to the Celery fallback. -/
def scrape_status (st : Store) (job_id : String)
    (metaReadFails resultReadFails : Bool) (nativeState : String)
    (nativeInfo : PyInfo) : StatusResult :=
  if metaReadFails then .httpError 503
  else
    match lookupKey st.meta job_id with
    | some m =>
      if m.state = "SUCCESS" then
        let res := if resultReadFails then none else lookupKey st.result job_id
        .ok ⟨job_id, "SUCCESS", 100, res.bind (fun r => r.reviews),
              res.bind (fun r => r.count), res.bind (fun r => r.product), none⟩
          { st with lock := none, owner := none }
      else if m.state = "PROGRESS" then
        .ok ⟨job_id, "PROGRESS", m.progress.getD 0, none, none, none, none⟩ st
      else if m.state = "REVOKED" then
        .ok ⟨job_id, "REVOKED", m.progress.getD 0, none, none, none, m.error⟩
          { st with lock := none, owner := none }
      else if m.state = "FAILURE" then
        .ok ⟨job_id, "FAILURE", m.progress.getD 0, none, none, none, m.error⟩
          { st with lock := none, owner := none }
      else
        let p := fallbackStatus st job_id nativeState nativeInfo
        .ok p.1 p.2
    | none =>
      let p := fallbackStatus st job_id nativeState nativeInfo
      .ok p.1 p.2

/-- The `CancelScrapeResponse` model returned by the cancel endpoint. -/
structure CancelScrapeResponse where
  job_id : String
  cancel_requested : Bool
deriving DecidableEq, Repr

/-- Outcome of one `cancel_scrape` call. -/
inductive CancelResult where
  | ok (resp : CancelScrapeResponse) (st : Store) : CancelResult
  | httpError (code : Nat) : CancelResult
deriving DecidableEq, Repr

/-- `cancel_scrape` (fetch_review_job.py lines 276-317).  Writing the cancel
flag is the only operation whose failure is surfaced (503); the best-effort
Celery `revoke(terminate=False)` touches no store key (cooperative model, solo
pool); the optimistic REVOKED envelope write (preserving any previous
progress) and the unconditional deletion of both lock keys are each wrapped in
`except ...: pass`, modelled by the `metaWriteFails` / `lockDelFails` skips. -/
def cancel_scrape (st : Store) (job_id : String)
    (cancelWriteFails metaWriteFails lockDelFails : Bool) : CancelResult :=
  if cancelWriteFails then .httpError 503
  else
    let st1 : Store :=
      { st with cancel :=
          if st.cancel.contains job_id then st.cancel
          else job_id :: st.cancel }
    let st2 : Store :=
      if metaWriteFails then st1
      else
        let prog : Int :=
          match lookupKey st1.meta job_id with
          | some prev => prev.progress.getD 0
          | none => 0
        { st1 with meta := (setKey st1.meta job_id
            (MetaEnv.mk "REVOKED" (some prog) (some "cancelled by user"))) }
    let st3 : Store :=
      if lockDelFails then st2
      else { st2 with lock := none, owner := none }
    .ok ⟨job_id, true⟩ st3

/-- The worker process: the Redis store plus the Celery-native task state of
the currently executing task (the target of `self.update_state`). -/
structure Sys where
  store : Store
  native : String
deriving DecidableEq, Repr

/-- The lock-reinforcement prologue of `run_scraper_task` (worker.py lines
86-93): if the lock key is absent it is recreated with a fresh TTL (an
existing lock is kept untouched, TTL included), then the owner key is
overwritten with this task's id and a fresh TTL, with no owner check. -/
def run_scraper_prologue (st : Store) (task_id : String) : Store :=
  let st1 := if st.lock.isNone then { st with lock := some LOCK_TTL } else st
  { st1 with owner := some (task_id, LOCK_TTL) }

/-- The owner-checked lock release used by the worker (worker.py lines
484-490, repeated at 507-513 and 527-533, and inside `_do_cancel` at lines
108-114): read the owner key and delete both lock keys only when it records
this task's id. -/
def release_if_owner (st : Store) (task_id : String) : Store :=
  match st.owner with
  | some (o, _) => if o = task_id then { st with lock := none, owner := none }
                   else st
  | none => st

/-- `_do_cancel` (worker.py lines 97-120): write the authoritative REVOKED
envelope, release the lock if this task is still the recorded owner, set the
Celery task state to REVOKED, then `raise Exception("cancelled by user")`.
The returned string is the message of that raised exception; whether it
propagates is decided at the call site. -/
def do_cancel (s : Sys) (task_id : String) (pct : Int) : String × Sys :=
  let st1 : Store :=
    { s.store with meta := (setKey s.store.meta task_id
        (MetaEnv.mk "REVOKED" (some pct) (some "cancelled by user"))) }
  let st2 := release_if_owner st1 task_id
  ("cancelled by user", { store := st2, native := "REVOKED" })

/-- `_update` (worker.py lines 129-158), the worker checkpoint.  The cancel
check runs `_do_cancel` when the flag key is present, but the enclosing
`except Exception: pass` catches the exception `_do_cancel` raises, so control
falls through to the normal update: the Celery state is set to PROGRESS, a
PROGRESS envelope is written to the metadata key (overwriting whatever
`_do_cancel` just wrote), and the TTLs of both lock keys are refreshed (Redis
EXPIRE: a no-op on an absent key).  The second component is the exception
escaping the callback, if any — every internal `try` swallows its exceptions,
so it is always `none` and the running job is never unwound. -/
def worker_update (s : Sys) (task_id : String) (pct : Int) :
    Sys × Option String :=
  let s1 := if s.store.cancel.contains task_id then
              (do_cancel s task_id pct).2
            else s
  let s2 : Sys := { s1 with native := "PROGRESS" }
  let st3 : Store :=
    { s2.store with meta := (setKey s2.store.meta task_id
        (MetaEnv.mk "PROGRESS" (some pct) none)) }
  let st4 : Store :=
    { st3 with lock := st3.lock.map (fun _ => LOCK_TTL),
               owner := st3.owner.map (fun p => (p.1, LOCK_TTL)) }
  ({ s2 with store := st4 }, none)

/-- The success epilogue of `run_scraper_task` (worker.py lines 472-491):
persist the result payload, write the SUCCESS envelope, then release the lock
only if this task is still the recorded owner. -/
def success_epilogue (st : Store) (task_id : String)
    (payload : ResultPayload) : Store :=
  let st1 : Store := { st with result := setKey st.result task_id payload }
  let st2 : Store :=
    { st1 with meta := (setKey st1.meta task_id
        (MetaEnv.mk "SUCCESS" (some 100) none)) }
  release_if_owner st2 task_id

/-- Projection: the response of a successful status call. -/
def statusResp (r : StatusResult) : Option ScrapeStatusResponse :=
  match r with
  | .ok resp _ => some resp
  | .httpError _ => none

/-- Projection: the store left behind by a successful status call. -/
def statusStore (r : StatusResult) : Option Store :=
  match r with
  | .ok _ st => some st
  | .httpError _ => none

/-- Projection: the store left behind by a successful cancel call. -/
def cancelStore (r : CancelResult) : Option Store :=
  match r with
  | .ok _ st => some st
  | .httpError _ => none

/-- The rate counter of one user after `k` submission attempts on a day that
started with the counter absent (all attempts with the store reachable). -/
def rate_counter_after (limit : Int) : Nat → Option Nat
  | 0 => none
  | k + 1 => (rate_limit_check limit (rate_counter_after limit k) false).2

/-- Modelled from the amended claim C7: the fallback status mapping in the
claim's own terms — native SUCCESS with a dict info payload maps to progress
100 with result/count/product drawn from the payload; native FAILURE maps to
the payload's progress (or 0) and an error equal to the payload's exc field
when the payload is a dict, the stringified payload when it is a truthy
non-dict value, and no error otherwise; every other case — including SUCCESS
with a non-dict payload — passes the native state through with the payload's
progress (or 0) and no error. -/
def fallback_mapping_amended (job_id nativeState : String)
    (nativeInfo : PyInfo) : ScrapeStatusResponse :=
  if nativeState = "SUCCESS" ∧ isDict nativeInfo = true then
    { job_id := job_id, state := nativeState, progress := 100,
      result := infoReviews nativeInfo, count := infoCount nativeInfo,
      product := infoProduct nativeInfo, error := none }
  else if nativeState = "FAILURE" then
    { job_id := job_id, state := nativeState,
      progress := infoProgress nativeInfo, result := none, count := none,
      product := none, error := infoError nativeInfo }
  else
    { job_id := job_id, state := nativeState,
      progress := infoProgress nativeInfo, result := none, count := none,
      product := none, error := none }

/-- A store in which the lock is held with owner task `B` while task `A` has a
SUCCESS metadata envelope and a result payload: the scenario of a straggling
finalizer for `A` after `B` acquired the lock. -/
def strayOwnerStore : Store :=
  { lock := some 100, owner := some ("B", 100),
    meta := [("A", MetaEnv.mk "SUCCESS" (some 100) none)],
    result := [("A", ResultPayload.mk (some "reviews-json") (some 2)
      (some "product-json"))],
    cancel := [] }

/-- A worker mid-job: task `A` holds the lock, its envelope reports PROGRESS
10, and the user has just set `A`'s cancel flag. -/
def cancelledMidJobSys : Sys :=
  { store := { lock := some 3600, owner := some ("A", 3600),
               meta := [("A", MetaEnv.mk "PROGRESS" (some 10) none)],
               result := [], cancel := ["A"] },
    native := "PROGRESS" }

/-- A running job `A` (lock held, PROGRESS envelope, no cancel flag yet):
the starting point of the cancellation-convergence scenario. -/
def runningJobStore : Store :=
  { lock := some 3600, owner := some ("A", 3600),
    meta := [("A", MetaEnv.mk "PROGRESS" (some 10) none)],
    result := [], cancel := [] }

/-- The store `cancel_scrape` leaves behind when applied to
`runningJobStore` for job `A`: cancel flag set, optimistic REVOKED envelope,
both lock keys deleted. -/
def afterCancelStore : Store :=
  { lock := none, owner := none,
    meta := [("A", MetaEnv.mk "REVOKED" (some 10)
      (some "cancelled by user"))],
    result := [], cancel := ["A"] }

/-- A status poll for job `A` against a given store, with the Task Queue
reporting a non-terminal native state (only consulted when the metadata
envelope is absent). -/
def pollA (st : Store) : Option String :=
  (statusResp (scrape_status st "A" false false "PENDING" PyInfo.pyNone)).map
    (fun r => r.state)

/-- A store with an existing lock whose remaining TTL is 5 seconds and whose
recorded owner is task `B` with 7 seconds left: the input showing that the
worker prologue leaves an existing lock's TTL untouched. -/
def staleTtlStore : Store :=
  { lock := some 5, owner := some ("B", 7), meta := [], result := [],
    cancel := [] }

/-- The empty coordination store. -/
def emptyStore : Store :=
  { lock := none, owner := none, meta := [], result := [], cancel := [] }

theorem rate_limit_check_down (limit : Int) (rate : Option Nat) :
    rate_limit_check limit rate true = (false, rate) := by
  unfold rate_limit_check
  split <;> rfl

theorem rate_limit_check_pos_eq (limit : Int) (hN : 0 < limit)
    (rate : Option Nat) :
    rate_limit_check limit rate false =
      (if ((rate.getD 0 + 1 : Nat) : Int) > limit
       then (true, some (rate.getD 0 + 1))
       else (false, some (rate.getD 0 + 1))) := by
  unfold rate_limit_check
  rw [if_pos hN]
  rfl

theorem rate_limit_check_snd (limit : Int) (hN : 0 < limit)
    (rate : Option Nat) :
    (rate_limit_check limit rate false).2 = some (rate.getD 0 + 1) := by
  rw [rate_limit_check_pos_eq limit hN]
  split <;> rfl

theorem rate_limit_check_fst (limit : Int) (hN : 0 < limit)
    (rate : Option Nat) :
    (rate_limit_check limit rate false).1 = true ↔
      (rate.getD 0 : Int) + 1 > limit := by
  rw [rate_limit_check_pos_eq limit hN]
  split
  case isTrue h =>
    push_cast at h
    simpa using h
  case isFalse h =>
    push_cast at h
    simpa using h

theorem rate_counter_after_getD (limit : Int) (hN : 0 < limit) :
    ∀ k, (rate_counter_after limit k).getD 0 = k := by
  intro k
  induction k with
  | zero => rfl
  | succ k ih =>
    show ((rate_limit_check limit (rate_counter_after limit k) false).2).getD 0
        = k + 1
    rw [rate_limit_check_snd limit hN, Option.getD_some, ih]

/-- Claim C2 (code bug): at a worker checkpoint with the cancel flag set,
`_do_cancel` does write the REVOKED envelope, release the owned lock, set the
Celery state to REVOKED and raise the cancellation exception — but `_update`
catches that exception in its blanket `except Exception: pass` around the
cancel check, so no exception escapes the checkpoint (`.2 = none`, the job is
not unwound), the Celery state is set back to PROGRESS, and a PROGRESS
envelope overwrites the REVOKED one. -/
theorem worker_checkpoint_swallows_cancellation :
    lookupKey (do_cancel cancelledMidJobSys "A" 50).2.store.meta "A" =
      some (MetaEnv.mk "REVOKED" (some 50) (some "cancelled by user")) ∧
    (do_cancel cancelledMidJobSys "A" 50).2.store.lock = none ∧
    (do_cancel cancelledMidJobSys "A" 50).2.native = "REVOKED" ∧
    (do_cancel cancelledMidJobSys "A" 50).1 = "cancelled by user" ∧
    (worker_update cancelledMidJobSys "A" 50).2 = none ∧
    (worker_update cancelledMidJobSys "A" 50).1.native = "PROGRESS" ∧
    lookupKey (worker_update cancelledMidJobSys "A" 50).1.store.meta "A" =
      some (MetaEnv.mk "PROGRESS" (some 50) none) := by
  decide

/-- Claim C3 (code bug): after `cancel_scrape` on running job `A` a poll does
report REVOKED with the lock unheld, but the very next worker checkpoint
overwrites the envelope with PROGRESS (the cancellation exception being
swallowed inside `_update`), so a poll at the checkpoint returns PROGRESS, and
after job completion a poll returns SUCCESS — the stored state does not
converge to REVOKED. -/
theorem cancellation_convergence_fails :
    cancel_scrape runningJobStore "A" false false false =
      CancelResult.ok (CancelScrapeResponse.mk "A" true) afterCancelStore ∧
    pollA afterCancelStore = some "REVOKED" ∧
    afterCancelStore.lock = none ∧
    pollA ((worker_update (Sys.mk afterCancelStore "PROGRESS") "A" 50).1.store)
      = some "PROGRESS" ∧
    pollA (success_epilogue
        ((worker_update (Sys.mk afterCancelStore "PROGRESS") "A" 50).1.store)
        "A" (ResultPayload.mk (some "r") (some 1) none)) = some "SUCCESS" := by
  decide

/-- Claim C9 (amended): at the start of `run_scraper_task` the worker
recreates the lock key with a fresh TTL only when it is absent — an existing
lock keeps its current TTL — and unconditionally overwrites the lock-owner key
with its own task id and a fresh TTL, without any owner check; nothing else in
the store is touched. -/
theorem run_scraper_prologue_behavior (st : Store) (tid : String) :
    (run_scraper_prologue st tid).owner = some (tid, LOCK_TTL) ∧
    (run_scraper_prologue st tid).lock = some (st.lock.getD LOCK_TTL) ∧
    (run_scraper_prologue st tid).meta = st.meta ∧
    (run_scraper_prologue st tid).result = st.result ∧
    (run_scraper_prologue st tid).cancel = st.cancel := by
  cases h : st.lock <;> simp [run_scraper_prologue, h]

/-- Claim C9 (counterexample to the claim as stated): on a store whose lock
key already exists with 5 seconds of TTL left and whose owner key records
task `B`, the prologue run by task `A` overwrites the owner key but leaves the
lock TTL at 5 — it does not refresh both TTLs. -/
theorem run_scraper_prologue_keeps_stale_ttl :
    (run_scraper_prologue staleTtlStore "A").owner = some ("A", LOCK_TTL) ∧
    (run_scraper_prologue staleTtlStore "A").lock = some 5 ∧
    (5 : Nat) ≠ LOCK_TTL := by
  decide

/-- Claim C4: with a configured daily limit N > 0, every submission attempt
increments the per-user-per-day counter (also when the attempt is rejected),
and an attempt is rejected exactly when the incremented count exceeds N —
surfacing as a 429 from `start_scrape` precisely when the rate check rejects.
Starting from an absent counter, after k attempts the counter is k, so the
first N attempts of a UTC day pass the rate check, the (N+1)-th is rejected,
and on the following day (counter expired, hence absent) the first attempt
passes again with the counter back at 1. -/
theorem start_scrape_rate_limit_boundary (N : Int) (hN : 0 < N) (k : Nat)
    (rate : Option Nat) (st : Store) (tid : String) (f1 f2 f3 : Bool) :
    (rate_limit_check N (some k) false).2 = some (k + 1) ∧
    ((rate_limit_check N (some k) false).1 = true ↔ (k : Int) + 1 > N) ∧
    rate_counter_after N (k + 1) = some (k + 1) ∧
    ((rate_limit_check N (rate_counter_after N k) false).1 = true ↔
      (k : Int) + 1 > N) ∧
    (rate_limit_check N none false).1 = false ∧
    (rate_limit_check N none false).2 = some 1 ∧
    ((start_scrape N rate st tid false f1 f2 f3).result =
        StartResult.httpError 429 ↔
      (rate_limit_check N rate false).1 = true) := by
  refine ⟨?_, ?_, ?_, ?_, ?_, ?_, ?_⟩
  · simpa using rate_limit_check_snd N hN (some k)
  · simpa using rate_limit_check_fst N hN (some k)
  · show (rate_limit_check N (rate_counter_after N k) false).2 = some (k + 1)
    rw [rate_limit_check_snd N hN, rate_counter_after_getD N hN]
  · rw [rate_limit_check_fst N hN, rate_counter_after_getD N hN]
  · have hf := rate_limit_check_fst N hN none
    have hn : ¬(((none : Option Nat).getD 0 : Int) + 1 > N) := by
      simp only [Option.getD_none, Nat.cast_zero]
      omega
    cases hb : (rate_limit_check N none false).1
    · rfl
    · exact absurd (hf.mp hb) hn
  · simpa using rate_limit_check_snd N hN none
  · by_cases hc : (rate_limit_check N rate false).1 = true
    · simp [start_scrape, hc]
    · cases hl : st.lock <;> cases f1 <;> cases f2 <;> cases f3 <;>
        simp [start_scrape, hc, hl]

/-- Witness for C4 at limit 3: after three attempts the counter is 3, the
fourth attempt of the day pushes it to 4 and is rejected. -/
theorem start_scrape_rate_limit_boundary_witness :
    (0 : Int) < 3 ∧ rate_counter_after 3 4 = some 4 ∧
    (rate_limit_check 3 (rate_counter_after 3 3) false).1 = true := by
  have h := start_scrape_rate_limit_boundary 3 (by decide) 3 none emptyStore
    "T1" false false false
  exact ⟨by decide, h.2.2.1, h.2.2.2.1.mpr (by norm_num)⟩

/-- Claim C5: when the coordination store is unreachable during the rate-limit
check, `start_scrape` fails open — the attempt is never rejected with 429, the
counter is untouched, and with the lock free the submission proceeds and
succeeds — whereas a failing store read in the status endpoint fails closed
with a 503 service-unavailable error. -/
theorem rate_fail_open_status_fail_closed (limit : Int) (rate : Option Nat)
    (st : Store) (tid job ns : String) (ni : PyInfo) (rf f1 f2 f3 : Bool)
    (hlock : st.lock = none) :
    (start_scrape limit rate st tid true false false false).result =
      StartResult.ok tid ∧
    (start_scrape limit rate st tid true false false false).rate = rate ∧
    (start_scrape limit rate st tid true f1 f2 f3).result ≠
      StartResult.httpError 429 ∧
    scrape_status st job true rf ns ni = StatusResult.httpError 503 := by
  refine ⟨?_, ?_, ?_, rfl⟩
  · simp [start_scrape, rate_limit_check_down, hlock]
  · simp [start_scrape, rate_limit_check_down, hlock]
  · cases f1 <;> cases f2 <;> cases f3 <;>
      simp [start_scrape, rate_limit_check_down, hlock]

/-- Witness for C5: concrete fail-open submission and fail-closed status. -/
theorem rate_fail_open_status_fail_closed_witness :
    emptyStore.lock = none ∧
    (start_scrape 3 (some 1) emptyStore "T1" true false false false).result =
      StartResult.ok "T1" ∧
    scrape_status emptyStore "J" true false "PENDING" PyInfo.pyNone =
      StatusResult.httpError 503 := by
  have h := rate_fail_open_status_fail_closed 3 (some 1) emptyStore "T1" "J"
    "PENDING" PyInfo.pyNone false false false false rfl
  exact ⟨rfl, h.1, h.2.2.2⟩

/-- Claim C6 (counterexample to the claim as stated): starting from an empty
store, with the queue submission succeeding and the subsequent owner-key write
failing, `start_scrape` reports a 500 although the task was enqueued
(`submitted = true`), and the lock key is NOT left in place to expire: the
shared except clause has deleted it. -/
theorem start_scrape_owner_write_failure_cex :
    (start_scrape 0 none emptyStore "T1" false false false true).submitted =
      true ∧
    (start_scrape 0 none emptyStore "T1" false false false true).result =
      StartResult.httpError 500 ∧
    (start_scrape 0 none emptyStore "T1" false false false true).store.lock =
      none := by
  decide

/-- Claim C6 (amended): in `start_scrape`, if the task has been successfully
submitted and the write recording its id under the lock-owner key then fails,
the except clause shared with the submission step deletes both the lock key
and the owner key and the endpoint reports a 500 enqueue error; the queue
submission itself is not (and cannot be) undone. -/
theorem start_scrape_owner_write_failure (limit : Int) (rate : Option Nat)
    (st : Store) (tid : String) (rdown : Bool)
    (hrc : (rate_limit_check limit rate rdown).1 = false)
    (hlock : st.lock = none) :
    start_scrape limit rate st tid rdown false false true =
      ⟨StartResult.httpError 500, true, (rate_limit_check limit rate rdown).2,
        { st with lock := none, owner := none }⟩ := by
  simp [start_scrape, hrc, hlock]

/-- Witness for C6: the amended behaviour at a concrete input. -/
theorem start_scrape_owner_write_failure_witness :
    (rate_limit_check 3 none false).1 = false ∧ emptyStore.lock = none ∧
    start_scrape 3 none emptyStore "T1" false false false true =
      ⟨StartResult.httpError 500, true, (rate_limit_check 3 none false).2,
        { emptyStore with lock := none, owner := none }⟩ := by
  have h := start_scrape_owner_write_failure 3 none emptyStore "T1" false
    (by decide) rfl
  exact ⟨by decide, rfl, h⟩

/-- Claim C1 (counterexample to the claim as stated): on `strayOwnerStore` the
recorded lock owner is task B, yet finalizing task A — via the status endpoint
observing A's SUCCESS envelope, or via the cancel endpoint — deletes the lock
key: the API-side deletions are not guarded by re-reading the owner key. -/
theorem owner_checked_release_cex :
    strayOwnerStore.owner = some ("B", 100) ∧
    (statusStore (scrape_status strayOwnerStore "A" false false "PENDING"
      PyInfo.pyNone)).map (fun s => s.lock) = some none ∧
    (cancelStore (cancel_scrape strayOwnerStore "A" false false false)).map
      (fun s => s.lock) = some none := by
  decide

/-- Claim C1 (amended): only the worker-side finalizers are owner-checked —
the completion-path release and the cancellation path `_do_cancel` delete
nothing when the recorded owner is another task B — while the API-side
finalizers (the status endpoint observing a terminal envelope, and the cancel
endpoint) delete the lock key unconditionally, without reading the owner
key. -/
theorem owner_checked_release_amended (st : Store) (n A B : String)
    (ttl : Nat) (pct : Int) (ns : String) (ni : PyInfo)
    (hAB : A ≠ B) (hown : st.owner = some (B, ttl)) :
    release_if_owner st A = st ∧
    (do_cancel ⟨st, n⟩ A pct).2.store.lock = st.lock ∧
    (do_cancel ⟨st, n⟩ A pct).2.store.owner = st.owner ∧
    (cancelStore (cancel_scrape st A false false false)).map
      (fun s => s.lock) = some none ∧
    (∀ p e, lookupKey st.meta A = some (MetaEnv.mk "SUCCESS" p e) →
      (statusStore (scrape_status st A false false ns ni)).map
        (fun s => s.lock) = some none) := by
  have hBA : B ≠ A := fun h => hAB h.symm
  refine ⟨?_, ?_, ?_, ?_, ?_⟩
  · simp [release_if_owner, hown, hBA]
  · simp [do_cancel, release_if_owner, hown, hBA]
  · simp [do_cancel, release_if_owner, hown, hBA]
  · simp [cancel_scrape, cancelStore]
  · intro p e hmeta
    simp [scrape_status, statusStore, hmeta]

/-- Witness for C1: the amended behaviour on `strayOwnerStore`. -/
theorem owner_checked_release_amended_witness :
    ("A" : String) ≠ "B" ∧ strayOwnerStore.owner = some ("B", 100) ∧
    release_if_owner strayOwnerStore "A" = strayOwnerStore ∧
    (do_cancel ⟨strayOwnerStore, "PROGRESS"⟩ "A" 50).2.store.lock =
      strayOwnerStore.lock := by
  have h := owner_checked_release_amended strayOwnerStore "PROGRESS" "A" "B"
    100 50 "PENDING" PyInfo.pyNone (by decide) rfl
  exact ⟨by decide, rfl, h.1, h.2.1⟩

theorem fallbackStatus_fst (st : Store) (job ns : String) (ni : PyInfo) :
    (fallbackStatus st job ns ni).1 = fallback_mapping_amended job ns ni := by
  unfold fallbackStatus fallback_mapping_amended
  dsimp only
  split_ifs <;> rfl

/-- Claim C7 (counterexample to the claim as stated): with no metadata
envelope and the Task Queue reporting native SUCCESS with a `None` info
payload, the fallback response carries progress 0, not 100 — the
progress-100 SUCCESS mapping only applies when the info payload is a dict. -/
theorem fallback_mapping_cex :
    lookupKey emptyStore.meta "A" = none ∧
    (statusResp (scrape_status emptyStore "A" false false "SUCCESS"
      PyInfo.pyNone)).map (fun r => r.state) = some "SUCCESS" ∧
    (statusResp (scrape_status emptyStore "A" false false "SUCCESS"
      PyInfo.pyNone)).map (fun r => r.progress) = some 0 ∧
    (0 : Int) ≠ 100 := by
  decide

/-- Claim C7 (amended): for a job id with no metadata envelope,
`scrape_status` returns exactly the fallback mapping of the Task Queue's
native status: SUCCESS with a dict payload maps to progress 100 with
result/count/product drawn from the payload; FAILURE maps to the payload's
progress (or 0) with the error drawn from the dict payload's exc field, or the
stringified payload when it is truthy and not a dict, else absent; every other
case — including SUCCESS with a non-dict payload — passes the state through
with the payload's progress (or 0) and no error. -/
theorem scrape_status_fallback_mapping (st : Store) (job ns : String)
    (ni : PyInfo) (rf : Bool) (hmeta : lookupKey st.meta job = none) :
    statusResp (scrape_status st job false rf ns ni) =
      some (fallback_mapping_amended job ns ni) := by
  have hred : scrape_status st job false rf ns ni =
      StatusResult.ok (fallbackStatus st job ns ni).1
        (fallbackStatus st job ns ni).2 := by
    unfold scrape_status
    rw [hmeta]
    rfl
  rw [hred, fallbackStatus_fst]
  rfl

/-- Witness for C7: the amended mapping at a concrete FAILURE input. -/
theorem scrape_status_fallback_mapping_witness :
    lookupKey emptyStore.meta "J" = none ∧
    statusResp (scrape_status emptyStore "J" false false "FAILURE"
        (PyInfo.pyOther true "boom")) =
      some (fallback_mapping_amended "J" "FAILURE"
        (PyInfo.pyOther true "boom")) := by
  exact ⟨rfl, scrape_status_fallback_mapping emptyStore "J" "FAILURE"
    (PyInfo.pyOther true "boom") false rfl⟩

/-- Claim C8: for a job whose metadata envelope records a terminal state
(SUCCESS, FAILURE or REVOKED), a status poll succeeds and polling again
returns the identical response — in particular identical state, result and
count — because the endpoint never modifies the metadata or result keys. -/
theorem scrape_status_terminal_idempotent (st : Store) (job ns : String)
    (ni : PyInfo) (m : MetaEnv) (hm : lookupKey st.meta job = some m)
    (hterm : m.state = "SUCCESS" ∨ m.state = "FAILURE" ∨
      m.state = "REVOKED") :
    statusResp (scrape_status st job false false ns ni) ≠ none ∧
    ((statusStore (scrape_status st job false false ns ni)).bind
      (fun st1 => statusResp (scrape_status st1 job false false ns ni))) =
      statusResp (scrape_status st job false false ns ni) := by
  rcases hterm with hs | hs | hs <;>
    simp [scrape_status, statusResp, statusStore, hm, hs]

/-- Witness for C8: two consecutive polls of a SUCCESS job coincide. -/
theorem scrape_status_terminal_idempotent_witness :
    lookupKey strayOwnerStore.meta "A" =
      some (MetaEnv.mk "SUCCESS" (some 100) none) ∧
    ((statusStore (scrape_status strayOwnerStore "A" false false "PENDING"
        PyInfo.pyNone)).bind (fun st1 =>
        statusResp (scrape_status st1 "A" false false "PENDING"
          PyInfo.pyNone))) =
      statusResp (scrape_status strayOwnerStore "A" false false "PENDING"
        PyInfo.pyNone) := by
  have h := scrape_status_terminal_idempotent strayOwnerStore "A" "PENDING"
    PyInfo.pyNone (MetaEnv.mk "SUCCESS" (some 100) none) (by decide)
    (Or.inl rfl)
  exact ⟨by decide, h.2⟩

/-- Claim C10: for every store and job id, `cancel_scrape` raises a 503 error
exactly when the cancel-flag write fails, and otherwise returns
`(job_id, cancel_requested = true)` regardless of whether the optimistic
REVOKED metadata write or the lock deletion fail (those failures, like a
failing Celery revoke, are swallowed). -/
theorem cancel_scrape_response_contract (st : Store) (job : String)
    (mwf ldf : Bool) :
    cancel_scrape st job true mwf ldf = CancelResult.httpError 503 ∧
    ∃ st3, cancel_scrape st job false mwf ldf =
      CancelResult.ok (CancelScrapeResponse.mk job true) st3 := by
  exact ⟨rfl, ⟨_, rfl⟩⟩

end Revu
